import Mathlib

/-!
Shallow embedding of the DropLink authentication subsystem
(src/backend/main.py) and proofs about its specification claims.

Conventions of the embedding:
* timestamps are natural numbers counting seconds (Python `datetime`
  values, `timedelta(minutes=m)` becomes `m * 60`, days become `d * 86400`);
* Python strings are Lean `String`s; `str.lower()`, `str.strip()` and the
  `in` substring test are given executable embeddings on the character
  data (`lower`, `strip`, `containsChar`, `substrOf`);
* fallible endpoints return `Except HTTPException _`; an
  `HTTPException(status_code, detail, headers={"Retry-After": s})`
  becomes `⟨status_code, detail, some s⟩`;
* the database rows of the `users` and `verification_codes` tables are
  explicit values threaded through each operation.
-/

namespace DropLink

/-! ### String primitives

The source manipulates ASCII data; Python's `str.lower()`, `str.strip()`
and `in` are embedded as executable functions on the character data (the
built-in `String` folds do not reduce inside the kernel). -/

/-- ASCII lowercasing of one character, as done by `str.lower()` on the
ASCII inputs of this subsystem. -/
def lowerChar (c : Char) : Char :=
  if 'A' ≤ c && c ≤ 'Z' then Char.ofNat (c.toNat + 32) else c

/-- Python `s.lower()`. -/
def lower (s : String) : String :=
  ⟨s.data.map lowerChar⟩

/-- The whitespace characters removed by Python `str.strip()`. -/
def isStripped (c : Char) : Bool :=
  c == ' ' || c == '\t' || c == '\n' || c == '\r' || c == '\x0b' || c == '\x0c'

/-- Python `s.strip()`. -/
def strip (s : String) : String :=
  ⟨((s.data.dropWhile isStripped).reverse.dropWhile isStripped).reverse⟩

/-- Python `c in s` for a single character `c`. -/
def containsChar (s : String) (c : Char) : Bool :=
  s.data.any (· == c)

/-- FastAPI `HTTPException`: status code, detail message, and the optional
`Retry-After` header used by the lockout responses. -/
structure HTTPException where
  status_code : Nat
  detail : String
  retry_after : Option Nat := none
deriving DecidableEq, Repr

/-! ### Password policy (main.py lines 467–609) -/

/-- The common-password denylist `COMMON_PASSWORDS` (main.py lines 468–482),
copied verbatim, duplicates included. -/
def COMMON_PASSWORDS : List String :=
  ["password", "123456", "12345678", "qwerty", "abc123", "monkey", "1234567", "letmein",
   "trustno1", "dragon", "baseball", "iloveyou", "master", "sunshine", "ashley", "bailey",
   "shadow", "123123", "654321", "superman", "qazwsx", "michael", "football", "password1",
   "welcome", "jesus", "ninja", "mustang", "password123", "admin", "hello", "charlie",
   "access", "princess", "starwars", "whatever", "login", "bailey", "passw0rd", "master",
   "123456789", "12345", "1234", "111111", "1234567890", "000000", "1234567", "password1",
   "admin123", "root", "pass", "test", "guest", "password12", "welcome123", "abc12345",
   "qwerty123", "password!", "password@", "password#", "letmein123", "admin1", "root123",
   "test123", "user", "demo", "changeme", "temp", "temppass", "welcome1", "hello123",
   "sample", "example", "default", "pass123", "pass1234", "mypassword", "secret", "secret123",
   "iloveyou1", "iloveyou123", "princess1", "monkey123", "dragon123", "football1", "shadow1",
   "sunshine1", "trustno1", "master123", "superman1", "baseball1", "michael1", "ashley1",
   "bailey1", "charlie1", "whatever1", "starwars1", "ninja1", "mustang1"]

/-- The character class of the regex `[!@#$%^&*(),.?":{}|<>]` used by both
`calculate_password_strength` and `validate_password`. -/
def SPECIAL_REGEX_CHARS : List Char :=
  "!@#$%^&*(),.?\":\x7b\x7d|<>".data

/-- `re.search(r'[a-z]', password)` -/
def hasLowerChar (password : String) : Bool :=
  password.data.any fun c => 'a' ≤ c && c ≤ 'z'

/-- `re.search(r'[A-Z]', password)` -/
def hasUpperChar (password : String) : Bool :=
  password.data.any fun c => 'A' ≤ c && c ≤ 'Z'

/-- `re.search(r'\d', password)` -/
def hasDigitChar (password : String) : Bool :=
  password.data.any fun c => '0' ≤ c && c ≤ '9'

/-- `re.search(r'[!@#$%^&*(),.?":{}|<>]', password)` -/
def hasSpecialChar (password : String) : Bool :=
  password.data.any fun c => SPECIAL_REGEX_CHARS.contains c

/-- `re.search(r'(.)\1{2,}', password)`: three or more equal consecutive
characters, scanned as the adjacent triples of the list (the regex `.`
does not match a newline). -/
def hasTripleRepeat (l : List Char) : Bool :=
  ((l.zip (l.drop 1)).zip (l.drop 2)).any fun x =>
    x.1.1 == x.1.2 && x.1.2 == x.2 && x.1.1 != '\n'

/-- `matchesAt needle hay`: `needle` is an initial segment of `hay`. -/
def matchesAt : List Char → List Char → Bool
  | [], _ => true
  | _ :: _, [] => false
  | a :: as, b :: bs => a == b && matchesAt as bs

/-- Python's substring test `needle in hay`, on character lists: `needle`
matches at some start position of `hay`. -/
def substrOf (needle hay : List Char) : Bool :=
  (List.range (hay.length + 1)).any fun i => matchesAt needle (hay.drop i)

/-- The alternatives of the sequential-run regex
`(012|123|234|345|456|567|678|789|890|abc|bcd|cde)`. -/
def SEQUENTIAL_RUNS : List String :=
  ["012", "123", "234", "345", "456", "567", "678", "789", "890", "abc", "bcd", "cde"]

/-- `re.search(r'(012|…|cde)', password.lower())`: one of the fixed
three-character runs occurs somewhere in the lowercased password. -/
def hasSequentialRun (lowered : String) : Bool :=
  SEQUENTIAL_RUNS.any fun s => substrOf s.data lowered.data

/-- `calculate_password_strength` (main.py lines 484–549): additive score,
clamped to [0, 100], plus the strength label. -/
def calculate_password_strength (password : String) : String × Int :=
  let n := password.length
  -- Length scoring (up to 30 points)
  let score : Int :=
    (if 8 ≤ n then 10 else 0) + (if 12 ≤ n then 10 else 0) + (if 16 ≤ n then 10 else 0)
  -- Character diversity (up to 40 points)
  let score := score
    + (if hasLowerChar password then 10 else 0)
    + (if hasUpperChar password then 10 else 0)
    + (if hasDigitChar password then 10 else 0)
    + (if hasSpecialChar password then 10 else 0)
  -- Bonus for mixing character types (up to 20 points)
  let charTypes : Nat :=
    (if hasLowerChar password then 1 else 0)
    + (if hasUpperChar password then 1 else 0)
    + (if hasDigitChar password then 1 else 0)
    + (if hasSpecialChar password then 1 else 0)
  let score := if charTypes = 4 then score + 20 else if charTypes = 3 then score + 10 else score
  -- Penalty for common patterns
  let score := if hasTripleRepeat password.data then score - 10 else score
  let score := if hasSequentialRun (lower password) then score - 10 else score
  -- Bonus for length beyond 16 (up to 10 points): `min(10, (len - 16) * 2)`
  let score :=
    if 16 < n then score + (if (10 : Int) ≤ ((n : Int) - 16) * 2 then 10 else ((n : Int) - 16) * 2)
    else score
  -- `max(0, min(100, score))`, clamp between 0-100
  let score := if score < 0 then 0 else if 100 < score then 100 else score
  let strength :=
    if score < 40 then "weak"
    else if score < 60 then "medium"
    else if score < 80 then "strong"
    else "very strong"
  (strength, score)

/-- Result record of `validate_password`. -/
structure PasswordValidation where
  valid : Bool
  errors : List String
  strength : String
  score : Int
deriving DecidableEq, Repr

/-- The advisory message appended when a password passes every hard rule but
is scored "weak" (main.py line 602). -/
def weak_advisory (score : Int) : String :=
  "Password meets minimum requirements but is weak (strength: " ++ toString score
    ++ "/100). Consider making it longer or more complex"

/-- The error list built by the hard rules of `validate_password`
(main.py lines 563–595), in source order.  The `username` argument is
`Option String`; Python's `if username:` is false for `None` and for the
empty string. -/
def hard_rule_errors (password : String) (username : Option String) : List String :=
  (if password.length < 8 then ["Password must be at least 8 characters long"] else [])
  ++ (if !hasUpperChar password then
        ["Password must contain at least one uppercase letter (A-Z)"] else [])
  ++ (if !hasLowerChar password then
        ["Password must contain at least one lowercase letter (a-z)"] else [])
  ++ (if !hasDigitChar password then
        ["Password must contain at least one number (0-9)"] else [])
  ++ (if !hasSpecialChar password then
        ["Password must contain at least one special character (!@#$%^&*)"] else [])
  ++ (if COMMON_PASSWORDS.contains (lower password) then
        ["Password is too common. Please choose a more unique password"] else [])
  ++ (match username with
      | some u =>
          if !u.isEmpty && (lower password) == (lower u) then
            ["Password cannot be the same as your username"] else []
      | none => [])
  ++ (match username with
      | some u =>
          if !u.isEmpty && 3 ≤ u.length && substrOf (lower u).data (lower password).data then
            ["Password cannot contain your username"] else []
      | none => [])

/-- `validate_password` (main.py lines 551–609). -/
def validate_password (password : String) (username : Option String) : PasswordValidation :=
  let errs := hard_rule_errors password username
  let strength := (calculate_password_strength password).1
  let score := (calculate_password_strength password).2
  -- Warn if password is weak (even if it meets minimum requirements)
  let errs := if errs.isEmpty && strength == "weak" then errs ++ [weak_advisory score] else errs
  { valid := errs.isEmpty, errors := errs, strength := strength, score := score }

instance {ε α : Type} [DecidableEq ε] [DecidableEq α] : DecidableEq (Except ε α) := fun a b =>
  match a, b with
  | .ok x, .ok y => decidable_of_iff (x = y) (by simp)
  | .error x, .error y => decidable_of_iff (x = y) (by simp)
  | .ok _, .error _ => isFalse (by simp)
  | .error _, .ok _ => isFalse (by simp)

/-! ### Token service (main.py lines 81–98 and 842–949) -/

/-- The environment-derived module configuration (main.py lines 81–92).
Defaults mirror the source's fallback values. -/
structure Config where
  SECRET_KEY : String
  PREVIOUS_SECRET_KEY : Option String
  CURRENT_KEY_VERSION : Int
  ACCESS_TOKEN_EXPIRE_DAYS : Nat
  ACTIVITY_TIMEOUT_MINUTES : Nat
  REMEMBER_ME_TIMEOUT_DAYS : Nat
deriving DecidableEq, Repr

/-- The configuration produced by the source's environment defaults:
no previous key, key version 1, 30-day absolute lifetime, 30-minute
standard inactivity timeout, 30-day remember-me timeout. -/
def defaultConfig : Config :=
  { SECRET_KEY := "your-secret-key-change-in-production-12345"
    PREVIOUS_SECRET_KEY := none
    CURRENT_KEY_VERSION := 1
    ACCESS_TOKEN_EXPIRE_DAYS := 30
    ACTIVITY_TIMEOUT_MINUTES := 30
    REMEMBER_ME_TIMEOUT_DAYS := 30 }

/-- The claims dictionary of a JWT issued or examined by this service.
`last_activity`, `remember_me` and `key_version` are optional because
`verify_token` reads them with `payload.get(...)` and a default. -/
structure TokenPayload where
  user_id : Nat
  username : String
  exp : Nat
  iat : Nat
  last_activity : Option Nat
  remember_me : Option Bool
  key_version : Option Int
deriving DecidableEq, Repr

/-- A signed JWT: its claims plus the secret that produced its signature
(the cryptographic signature itself is abstracted as the identity of the
signing secret). -/
structure Token where
  payload : TokenPayload
  signedWith : String
deriving DecidableEq, Repr

/-- Outcome of `jwt.decode(token, key, algorithms=[ALGORITHM])`. -/
inductive DecodeResult where
  | ok (payload : TokenPayload)
  | expired
  | invalid
deriving DecidableEq, Repr

/-- `jwt.decode`: the signature is checked first (failure raises
`InvalidTokenError`), then the `exp` claim (raising
`ExpiredSignatureError` when `exp ≤ now`). -/
def jwt_decode (t : Token) (key : String) (now : Nat) : DecodeResult :=
  if t.signedWith ≠ key then .invalid
  else if t.payload.exp ≤ now then .expired
  else .ok t.payload

/-- The decoding phase of `verify_token` (main.py lines 884–903): try the
current secret, and only on a signature failure — not on expiry — fall
back to the previous secret when one is configured.  Returns the payload
together with the `used_previous_key` flag. -/
def decode_with_grace (cfg : Config) (t : Token) (now : Nat) :
    Except HTTPException (TokenPayload × Bool) :=
  match jwt_decode t cfg.SECRET_KEY now with
  | .ok payload => .ok (payload, false)
  | .expired => .error ⟨401, "Token has expired", none⟩
  | .invalid =>
      match cfg.PREVIOUS_SECRET_KEY with
      | some prev =>
          match jwt_decode t prev now with
          | .ok payload => .ok (payload, true)
          | .expired => .error ⟨401, "Token has expired", none⟩
          | .invalid => .error ⟨401, "Invalid token", none⟩
      | none => .error ⟨401, "Invalid token", none⟩

/-- The key-version acceptance test of `verify_token` (main.py lines
906–922): the token's `key_version` claim (default 1) must equal the
current version, or — when the previous secret verified the signature —
the current version minus one. -/
def key_version_ok (cfg : Config) (token_key_version : Int) (used_previous_key : Bool) : Bool :=
  token_key_version == cfg.CURRENT_KEY_VERSION
    || (used_previous_key && token_key_version == cfg.CURRENT_KEY_VERSION - 1)

/-- The `HTTPException` raised when the key-version test fails. -/
def invalidated_error : HTTPException :=
  ⟨401, "Token has been invalidated. Please log in again.", none⟩

/-- The detail string of the inactivity failure, for the timeout that
corresponds to the token's `remember_me` flag. -/
def session_expired_detail (cfg : Config) (remember_me : Bool) : String :=
  "Session expired due to inactivity (timeout: "
    ++ (if remember_me then toString cfg.REMEMBER_ME_TIMEOUT_DAYS ++ " days"
        else toString cfg.ACTIVITY_TIMEOUT_MINUTES ++ " minutes")
    ++ "). Please log in again."

/-- The activity-timeout phase of `verify_token` (main.py lines 924–947).
Python's `if last_activity:` skips the whole check when the claim is
missing or zero; otherwise `now - last_activity` is compared (as a signed
duration) against the timeout selected by `remember_me`. -/
def activity_check (cfg : Config) (payload : TokenPayload) (now : Nat) : Option HTTPException :=
  let last_activity := payload.last_activity.getD 0
  if last_activity = 0 then none
  else
    let remember_me := payload.remember_me.getD false
    let timeout : Int :=
      if remember_me then (cfg.REMEMBER_ME_TIMEOUT_DAYS : Int) * 86400
      else (cfg.ACTIVITY_TIMEOUT_MINUTES : Int) * 60
    if (now : Int) - (last_activity : Int) > timeout then
      some ⟨401, session_expired_detail cfg remember_me, none⟩
    else none

/-- `verify_token` (main.py lines 869–949). -/
def verify_token (cfg : Config) (t : Token) (now : Nat)
    (check_activity : Bool) (check_key_version : Bool) :
    Except HTTPException TokenPayload :=
  match decode_with_grace cfg t now with
  | .error e => .error e
  | .ok (payload, used_previous_key) =>
      if check_key_version
          && !key_version_ok cfg (payload.key_version.getD 1) used_previous_key then
        .error invalidated_error
      else if check_activity then
        match activity_check cfg payload now with
        | some e => .error e
        | none => .ok payload
      else .ok payload

/-- `create_access_token` (main.py lines 842–867): claims carry issuance
time, activity time, the remember-me flag and the current key version;
the token is signed with the current secret. -/
def create_access_token (cfg : Config) (user_id : Nat) (username : String)
    (remember_me : Bool) (now : Nat) : Token :=
  { payload :=
      { user_id := user_id
        username := username
        exp := now + cfg.ACCESS_TOKEN_EXPIRE_DAYS * 86400
        iat := now
        last_activity := some now
        remember_me := some remember_me
        key_version := some cfg.CURRENT_KEY_VERSION }
    signedWith := cfg.SECRET_KEY }

/-! ### Users table and login (main.py lines 1339–1507) -/

/-- A row of the `users` table (the columns read by `login`). -/
structure UserRec where
  id : Nat
  username : String
  password_hash : String
  email : Option String
  failed_login_attempts : Nat
  locked_until : Option Nat
deriving DecidableEq, Repr

/-- `SELECT ... FROM users WHERE LOWER(username) = ?` against the lowered
request username. -/
def find_user (users : List UserRec) (username_lower : String) : Option UserRec :=
  users.find? fun u => lower u.username == username_lower

/-- The body of a successful `AuthResponse`. -/
structure AuthResponse where
  token : Token
  user_id : Nat
  username : String
deriving DecidableEq, Repr

/-- Everything `login` does: its HTTP result, the user row as it stands in
the database after the call (`none` when no row matched), and whether the
lockout-notification email was dispatched. -/
structure LoginStep where
  result : Except HTTPException AuthResponse
  user_after : Option UserRec
  lockout_email_sent : Bool
deriving Repr

/-- `login` (main.py lines 1339–1507).  `checkpw password hash` stands for
`bcrypt.checkpw` (the bcrypt library is external to the repository, so the
password check is a parameter).  The pydantic `LoginRequest` strips the
username and the endpoint lowercases it. -/
def login (cfg : Config) (checkpw : String → String → Bool) (users : List UserRec)
    (username password : String) (remember_me : Bool) (now : Nat) : LoginStep :=
  let username_lower := lower (strip username)
  match find_user users username_lower with
  | none =>
      { result := .error ⟨401, "Invalid username or password", none⟩
        user_after := none
        lockout_email_sent := false }
  | some user =>
      -- Check if account is locked; an expired lock resets the counters.
      let afterLock : UserRec ⊕ (UserRec × HTTPException) :=
        match user.locked_until with
        | some locked_until =>
            if now < locked_until then
              let remaining_seconds := locked_until - now
              let remaining_minutes := remaining_seconds / 60
              .inr (user,
                ⟨423,
                 "Account locked due to multiple failed login attempts. Try again in "
                   ++ toString remaining_minutes ++ " minutes.",
                 some remaining_seconds⟩)
            else
              .inl { user with failed_login_attempts := 0, locked_until := none }
        | none => .inl user
      match afterLock with
      | .inr (user, e) =>
          { result := .error e, user_after := some user, lockout_email_sent := false }
      | .inl user =>
          if !checkpw password user.password_hash then
            let failed_attempts := user.failed_login_attempts + 1
            if 5 ≤ failed_attempts then
              -- Lock account after 5 failed attempts
              let locked := { user with
                failed_login_attempts := failed_attempts
                locked_until := some (now + 15 * 60) }
              { result := .error
                  ⟨423,
                   "Account locked due to multiple failed login attempts. Try again in 15 minutes.",
                   some (15 * 60)⟩
                user_after := some locked
                -- `if email:` — truthiness of the optional email column
                lockout_email_sent := !(user.email.getD "").isEmpty }
            else
              let remaining_attempts := 5 - failed_attempts
              { result := .error
                  ⟨401,
                   "Invalid username or password. " ++ toString remaining_attempts
                     ++ " attempts remaining before account lockout.",
                   none⟩
                user_after := some { user with failed_login_attempts := failed_attempts }
                lockout_email_sent := false }
          else
            -- Successful login - reset failed attempts
            { result := .ok
                { token := create_access_token cfg user.id user.username remember_me now
                  user_id := user.id
                  username := user.username }
              user_after := some { user with failed_login_attempts := 0, locked_until := none }
              lockout_email_sent := false }

/-! ### Registration (main.py lines 456–465, 716–745, 1184–1337) -/

/-- Character predicates of Python's ASCII-range `str.isalnum` components
as used on the (lowercased) usernames of this subsystem. -/
def isAsciiAlnum (c : Char) : Bool :=
  ('a' ≤ c && c ≤ 'z') || ('A' ≤ c && c ≤ 'Z') || ('0' ≤ c && c ≤ '9')

/-- `validate_username_format` (main.py lines 456–465): strip, lowercase,
then check length 3–20 and the character set `^[a-z0-9_.]+$`.  Returns the
normalized username or the raised `ValueError` message. -/
def validate_username_format (username : String) : Except String String :=
  if username.isEmpty then .error "Username is required"
  else
    let u := lower (strip username)
    if u.length < 3 || 20 < u.length then .error "Username must be 3-20 characters"
    else if !(u.data ≠ [] && u.data.all fun c =>
        ('a' ≤ c && c ≤ 'z') || ('0' ≤ c && c ≤ '9') || c == '_' || c == '.') then
      .error "Username can only contain letters, numbers, underscores, and periods"
    else .ok u

/-- `validate_email_format` (main.py lines 429–437): strip + lowercase,
then the regex `^[a-zA-Z0-9._%+-]+@[a-zA-Z0-9.-]+\.[a-zA-Z]{2,}$`: one `@`
splitting a nonempty local part over its own character class from a domain
that ends in a dot followed by at least two letters. -/
def validate_email_format (email : String) : Except String String :=
  if email.isEmpty then .ok email
  else
    let e := lower (strip email)
    let localChar := fun c : Char =>
      isAsciiAlnum c || c == '.' || c == '_' || c == '%' || c == '+' || c == '-'
    let domainChar := fun c : Char => isAsciiAlnum c || c == '.' || c == '-'
    let alphaChar := fun c : Char => ('a' ≤ c && c ≤ 'z') || ('A' ≤ c && c ≤ 'Z')
    let ok :=
      match e.data.splitOn '@' with
      | [localPart, domainPart] =>
          !localPart.isEmpty && localPart.all localChar &&
          (match (domainPart.reverse.splitOn '.').head? with
           | some tldRev =>
               let tld := tldRev.reverse
               2 ≤ tld.length && tld.all alphaChar
                 && tld.length < domainPart.length  -- a dot precedes the final letters
                 && (domainPart.take (domainPart.length - tld.length - 1)).all domainChar
                 && !(domainPart.take (domainPart.length - tld.length - 1)).isEmpty
           | none => false)
      | _ => false
    if ok then .ok e else .error "Invalid email format"

/-- The pydantic validation of the `email` field of `RegisterRequest`
(main.py lines 725–729): `None` or the empty string become `None`,
otherwise `validate_email_format` runs. -/
def register_email_field (email : Option String) : Except String (Option String) :=
  match email with
  | none => .ok none
  | some e =>
      if e.isEmpty then .ok none
      else match validate_email_format e with
        | .ok v => .ok (some v)
        | .error m => .error m

/-- The pydantic validation of the `password` field of `RegisterRequest`
(main.py lines 718, 731–745): the `constr(min_length=8, max_length=128)`
bound checks run first; only then does the field validator call
`validate_password(v, values.get('username', ''))` and raise the full
error list joined with `"; "`.  `username_value` is the validated username
(or the empty string when the username field itself failed). -/
def register_password_field (password : String) (username_value : String) :
    Except String String :=
  if password.length < 8 then .error "ensure this value has at least 8 characters"
  else if 128 < password.length then .error "ensure this value has at most 128 characters"
  else
    let r := validate_password password (some username_value)
    if r.valid then .ok password
    else .error (String.intercalate "; " r.errors)

/-- The parsed `RegisterRequest`. -/
structure RegisterRequest where
  username : String
  password : String
  email : Option String
deriving DecidableEq, Repr

/-- Pydantic validation of a `RegisterRequest` body: each field is
validated independently (username, password, email in declaration order)
and a failing request collects every field's error message into the 422
response. -/
def parse_register_request (username password : String) (email : Option String) :
    Except (List String) RegisterRequest :=
  let ures := validate_username_format username
  let username_value := match ures with | .ok u => u | .error _ => ""
  let pres := register_password_field password username_value
  let eres := register_email_field email
  let errs :=
    (match ures with | .error m => [m] | .ok _ => [])
    ++ (match pres with | .error m => [m] | .ok _ => [])
    ++ (match eres with | .error m => [m] | .ok _ => [])
  match ures, pres, eres with
  | .ok u, .ok p, .ok e => .ok ⟨u, p, e⟩
  | _, _, _ => .error errs

/-- The five sequential password checks of the `register` endpoint body
(main.py lines 1213–1257), returning the detail of the first failed check.
The special-character set here is the literal
`"!@#$%^&*()_+-=[]{}; ':\"\\|,.<>/?"`, a different set from the
`validate_password` regex class. -/
def ENDPOINT_SPECIAL_CHARS : List Char :=
  "!@#$%^&*()_+-=[]\x7b\x7d; ':\"\\|,.<>/?".data

/-- First failing check among the endpoint's inline password rules. -/
def register_password_error (password : String) : Option String :=
  if password.length < 8 then some "Password must be at least 8 characters"
  else if !hasUpperChar password then some "Password must contain at least one uppercase letter"
  else if !hasLowerChar password then some "Password must contain at least one lowercase letter"
  else if !hasDigitChar password then some "Password must contain at least one number"
  else if !(password.data.any fun c => ENDPOINT_SPECIAL_CHARS.contains c) then
    some "Password must contain at least one special character"
  else none

/-- The email-uniqueness test of the endpoint body (main.py lines
1275–1289): skipped for a falsy email and for the hardcoded testing
address; otherwise a case-insensitive collision against stored emails. -/
def email_taken (users : List UserRec) (email : Option String) : Bool :=
  match email with
  | none => false
  | some e =>
      if e.isEmpty then false
      else if lower e == "caitie690@gmail.com" then false
      else users.any fun u =>
        match u.email with
        | some ue => lower ue == lower e
        | none => false

/-- Outcome of the full `register` operation: a pydantic 422 with the
collected field messages, an endpoint `HTTPException`, or success. -/
inductive RegisterOutcome where
  | validationError (errors : List String)
  | httpError (e : HTTPException)
  | success (r : AuthResponse)
deriving DecidableEq, Repr

/-- `register` (main.py lines 1184–1326) composed with the pydantic
request model: request validation first, then the endpoint body (username
length/charset, the five inline password checks, username and email
uniqueness, insertion and token issuance).  `fresh_id` stands for the
autoincrement id of the inserted row. -/
def register (cfg : Config) (users : List UserRec) (username password : String)
    (email : Option String) (fresh_id : Nat) (now : Nat) : RegisterOutcome :=
  match parse_register_request username password email with
  | .error errs => .validationError errs
  | .ok req =>
      let username_lower := lower req.username
      if username_lower.isEmpty || username_lower.length < 3 || 20 < username_lower.length then
        .httpError ⟨400, "Username must be 3-20 characters", none⟩
      else if !(let s := username_lower.data.filter fun c => c ≠ '_' && c ≠ '.'
                s ≠ [] && s.all isAsciiAlnum) then
        .httpError ⟨400, "Username can only contain letters, numbers, underscores, and periods", none⟩
      else match register_password_error req.password with
      | some d => .httpError ⟨400, d, none⟩
      | none =>
          if (find_user users username_lower).isSome then
            .httpError ⟨400, "Username already taken", none⟩
          else if email_taken users req.email then
            .httpError ⟨400, "An account with this email already exists", none⟩
          else
            .success
              { token := create_access_token cfg fresh_id username_lower false now
                user_id := fresh_id
                username := username_lower }

/-! ### Verification codes (main.py lines 1688–1787, 1916–2124) -/

/-- A row of the `verification_codes` table (code and expiry for a given
email + code_type pair). -/
structure CodeRec where
  code : String
  expires_at : Nat
deriving DecidableEq, Repr

/-- The `verification_codes` table, keyed by `(email, code_type)`.  Every
write path of the source first deletes the rows it is about to shadow, so
the table holds at most one row per key and is embedded as a map. -/
def VStore := String → String → Option CodeRec

/-- `DELETE FROM verification_codes WHERE email = ? AND code_type = ?` -/
def delete_code (s : VStore) (email code_type : String) : VStore :=
  fun e t => if e = email && t = code_type then none else s e t

/-- `DELETE FROM verification_codes WHERE email = ?` (all purposes). -/
def delete_codes_for_email (s : VStore) (email : String) : VStore :=
  fun e t => if e = email then none else s e t

/-- `INSERT INTO verification_codes (email, code, code_type, expires_at)` -/
def insert_code (s : VStore) (email code_type code : String) (expires_at : Nat) : VStore :=
  fun e t => if e = email && t = code_type then some ⟨code, expires_at⟩ else s e t

/-- Result and post-state of a send endpoint. -/
structure SendStep where
  result : Except HTTPException Unit
  store : VStore

/-- `send_verification_code` (main.py lines 1688–1732).  `code` stands for
the six random digits drawn by `random.randint`; the expiry is
`now + 10 minutes`.  Note the delete touches every code stored for the
email, not only the `registration` purpose. -/
def send_verification_code (s : VStore) (emailArg code : String) (now : Nat) : SendStep :=
  let email := strip (lower emailArg)
  if !(containsChar email '@') || !(containsChar email '.') then
    { result := .error ⟨400, "Invalid email format", none⟩, store := s }
  else
    let s := delete_codes_for_email s email
    let s := insert_code s email "registration" code (now + 10 * 60)
    { result := .ok (), store := s }

/-- `verify_code` (main.py lines 1734–1787): look up the stored
registration code, reject `NotFound` / `Expired` (deleting on expiry) /
`Mismatch`, and delete the row on success. -/
def verify_code (s : VStore) (emailArg codeArg : String) (now : Nat) : SendStep :=
  let email := strip (lower emailArg)
  let code := strip codeArg
  match s email "registration" with
  | none =>
      { result := .error ⟨400, "No verification code found for this email", none⟩, store := s }
  | some row =>
      if row.expires_at < now then
        { result := .error ⟨400, "Verification code has expired. Please request a new one.", none⟩
          store := delete_code s email "registration" }
      else if row.code ≠ code then
        { result := .error ⟨400, "Invalid verification code", none⟩, store := s }
      else
        { result := .ok (), store := delete_code s email "registration" }

/-- `send_recovery_code` (main.py lines 1916–1973): the email must belong
to an existing account (`SELECT ... WHERE email = ?`); only the
`(email, recovery_<type>)` rows are deleted before the insert. -/
def send_recovery_code (s : VStore) (users : List UserRec) (emailArg code ty : String)
    (now : Nat) : SendStep :=
  let email := strip (lower emailArg)
  if !(containsChar email '@') || !(containsChar email '.') then
    { result := .error ⟨400, "Invalid email format", none⟩, store := s }
  else
    match users.find? fun u => u.email == some email with
    | none =>
        { result := .error ⟨404, "No account found with this email address", none⟩, store := s }
    | some _ =>
        let code_type := "recovery_" ++ ty
        let s := delete_code s email code_type
        let s := insert_code s email code_type code (now + 10 * 60)
        { result := .ok (), store := s }

/-- Result and post-state of `verify_recovery_code`; the payload is the
recovered username for the `username` type. -/
structure RecoveryStep where
  result : Except HTTPException (Option String)
  store : VStore

/-- `verify_recovery_code` (main.py lines 1975–2048): on success the
`username` type deletes its row and returns the username, while the
`password` type keeps the row for the later reset step. -/
def verify_recovery_code (s : VStore) (users : List UserRec)
    (emailArg codeArg ty : String) (now : Nat) : RecoveryStep :=
  let email := strip (lower emailArg)
  let code := strip codeArg
  let code_type := "recovery_" ++ ty
  match s email code_type with
  | none =>
      { result := .error ⟨400, "No recovery code found for this email", none⟩, store := s }
  | some row =>
      if row.expires_at < now then
        { result := .error ⟨400, "Recovery code has expired. Please request a new one.", none⟩
          store := delete_code s email code_type }
      else if row.code ≠ code then
        { result := .error ⟨400, "Invalid recovery code", none⟩, store := s }
      else if ty = "username" then
        match users.find? fun u => u.email == some email with
        | none => { result := .error ⟨404, "User not found", none⟩, store := s }
        | some user =>
            { result := .ok (some user.username), store := delete_code s email code_type }
      else
        -- For password recovery, keep code for password reset step
        { result := .ok none, store := s }

/-- Result and post-state of `reset_password`. -/
structure ResetStep where
  result : Except HTTPException Unit
  store : VStore
  users : List UserRec

/-- `reset_password` (main.py lines 2050–2124): re-validates the stored
`recovery_password` code, applies the same five inline password checks as
the `register` endpoint body, then updates the hash of every row with the
email and deletes the used code.  `new_hash` stands for the fresh bcrypt
hash of the new password. -/
def reset_password (s : VStore) (users : List UserRec)
    (emailArg codeArg new_password new_hash : String) (now : Nat) : ResetStep :=
  let email := strip (lower emailArg)
  let code := strip codeArg
  match s email "recovery_password" with
  | none =>
      { result := .error ⟨400, "No recovery code found. Please request a new code.", none⟩
        store := s, users := users }
  | some row =>
      if row.expires_at < now then
        { result := .error ⟨400, "Recovery code has expired. Please request a new one.", none⟩
          store := delete_code s email "recovery_password", users := users }
      else if row.code ≠ code then
        { result := .error ⟨400, "Invalid recovery code", none⟩, store := s, users := users }
      else
        match register_password_error new_password with
        | some d => { result := .error ⟨400, d, none⟩, store := s, users := users }
        | none =>
            { result := .ok ()
              store := delete_code s email "recovery_password"
              users := users.map fun u =>
                if u.email == some email then { u with password_hash := new_hash } else u }

/-! ### Concrete instances used by counterexamples and witnesses -/

/-- A configuration as it stands right after a key rotation: version 2,
fresh current secret, the old secret in the grace slot. -/
def cfgRot : Config :=
  { SECRET_KEY := "k2", PREVIOUS_SECRET_KEY := some "k1", CURRENT_KEY_VERSION := 2,
    ACCESS_TOKEN_EXPIRE_DAYS := 30, ACTIVITY_TIMEOUT_MINUTES := 30,
    REMEMBER_ME_TIMEOUT_DAYS := 30 }

/-- A token signed with the previous secret of `cfgRot` whose
`key_version` claim is the CURRENT version (not current − 1). -/
def tokPrevCur : Token :=
  { payload := { user_id := 7, username := "alice", exp := 1000, iat := 0,
                 last_activity := none, remember_me := none, key_version := some 2 },
    signedWith := "k1" }

/-- Plain string-equality password oracle standing for `bcrypt.checkpw`
in concrete scenarios. -/
def ckeq : String → String → Bool := fun p h => p == h

/-- One stored account, username `alice`, hash `pw`, unlocked. -/
def usersOne : List UserRec := [⟨1, "alice", "pw", none, 0, none⟩]

/-- A store holding one `recovery_password` code for `a@b.c`. -/
def storeRP : VStore := fun e t =>
  if e = "a@b.c" && t = "recovery_password" then some ⟨"111111", 1000⟩ else none

/-- A store holding a registration, a username-recovery and a
password-recovery code for `a@b.c`, all `123456` expiring at 700. -/
def storeAll : VStore := fun e t =>
  if e = "a@b.c" && (t = "registration" || t = "recovery_username" || t = "recovery_password")
  then some ⟨"123456", 700⟩ else none

/-- One stored account whose email is `a@b.c`. -/
def usersEmail : List UserRec := [⟨1, "alice", "h", some "a@b.c", 0, none⟩]

/-! ## Helper lemmas -/

theorem jwt_decode_ok_payload (t : Token) (key : String) (now : Nat) (p : TokenPayload)
    (h : jwt_decode t key now = .ok p) : p = t.payload := by
  unfold jwt_decode at h
  split at h
  · exact absurd h (by simp)
  · split at h
    · exact absurd h (by simp)
    · simpa using h.symm

theorem decode_with_grace_error_cases (cfg : Config) (t : Token) (now : Nat)
    (e : HTTPException) (h : decode_with_grace cfg t now = .error e) :
    e = ⟨401, "Token has expired", none⟩ ∨ e = ⟨401, "Invalid token", none⟩ := by
  unfold decode_with_grace at h
  split at h
  · exact absurd h (by simp)
  · left; simpa using h.symm
  · split at h
    · split at h
      · exact absurd h (by simp)
      · left; simpa using h.symm
      · right; simpa using h.symm
    · right; simpa using h.symm

theorem decode_with_grace_ok_payload (cfg : Config) (t : Token) (now : Nat)
    (p : TokenPayload) (upk : Bool)
    (h : decode_with_grace cfg t now = .ok (p, upk)) : p = t.payload := by
  unfold decode_with_grace at h
  split at h
  case _ q hq =>
    have := jwt_decode_ok_payload t cfg.SECRET_KEY now q hq
    simp only [Except.ok.injEq, Prod.mk.injEq] at h
    exact h.1 ▸ this
  · exact absurd h (by simp)
  · split at h
    · split at h
      case _ q hq =>
        have := jwt_decode_ok_payload t _ now q hq
        simp only [Except.ok.injEq, Prod.mk.injEq] at h
        exact h.1 ▸ this
      · exact absurd h (by simp)
      · exact absurd h (by simp)
    · exact absurd h (by simp)

theorem session_expired_detail_length (cfg : Config) (rm : Bool) :
    67 ≤ (session_expired_detail cfg rm).length := by
  have h1 : ("Session expired due to inactivity (timeout: " : String).length = 44 := rfl
  have h2 : ("). Please log in again." : String).length = 23 := rfl
  unfold session_expired_detail
  simp only [String.length_append, h1, h2]
  omega

theorem session_expired_detail_ne_invalidated (cfg : Config) (rm : Bool) :
    session_expired_detail cfg rm ≠ invalidated_error.detail := by
  intro h
  have := session_expired_detail_length cfg rm
  rw [h] at this
  exact absurd this (by decide)

theorem session_expired_detail_ne_expired (cfg : Config) (rm : Bool) :
    session_expired_detail cfg rm ≠ "Token has expired" := by
  intro h
  have := session_expired_detail_length cfg rm
  rw [h] at this
  exact absurd this (by decide)

theorem session_expired_detail_ne_invalid (cfg : Config) (rm : Bool) :
    session_expired_detail cfg rm ≠ "Invalid token" := by
  intro h
  have := session_expired_detail_length cfg rm
  rw [h] at this
  exact absurd this (by decide)

/-! ## C1 — key-version rule of `verify_token` -/

/-- C1 (counterexample): the claim states that a token whose signature
verified under the PREVIOUS secret is rejected as Invalidated unless its
`keyVersion` equals `CURRENT_KEY_VERSION - 1` exactly.  `tokPrevCur` is
signed with `cfgRot`'s previous secret and carries `keyVersion = 2 =
CURRENT_KEY_VERSION ≠ CURRENT_KEY_VERSION - 1`, yet `verify_token`
accepts it. -/
theorem C1_counterexample :
    tokPrevCur.signedWith ≠ cfgRot.SECRET_KEY
    ∧ cfgRot.PREVIOUS_SECRET_KEY = some tokPrevCur.signedWith
    ∧ tokPrevCur.payload.key_version.getD 1 ≠ cfgRot.CURRENT_KEY_VERSION - 1
    ∧ verify_token cfgRot tokPrevCur 0 true true = .ok tokPrevCur.payload := by
  refine ⟨by decide, by decide, by decide, by decide⟩

/-- C1 (amended): with the key-version check enabled, `verify_token`
fails with the Invalidated error exactly when the signature decodes (under
the current secret, or the previous one during grace) but the token's
`key_version` claim (defaulting to 1) is neither `CURRENT_KEY_VERSION`
nor — only when the previous secret verified the signature —
`CURRENT_KEY_VERSION - 1`.  In particular a previous-secret token whose
`keyVersion` equals the CURRENT version is accepted, not Invalidated. -/
theorem activity_check_some_shape (cfg : Config) (p : TokenPayload) (now : Nat)
    (e : HTTPException) (h : activity_check cfg p now = some e) :
    ∃ rm, e = ⟨401, session_expired_detail cfg rm, none⟩ := by
  unfold activity_check at h
  dsimp only at h
  split at h
  · exact absurd h (by simp)
  · split at h
    · split at h
      · exact ⟨_, by simpa using h.symm⟩
      · exact absurd h (by simp)
    · split at h
      · exact ⟨_, by simpa using h.symm⟩
      · exact absurd h (by simp)

theorem C1_amended_key_version_rule (cfg : Config) (t : Token) (now : Nat)
    (check_activity : Bool) :
    verify_token cfg t now check_activity true = .error invalidated_error
      ↔ ∃ p upk, decode_with_grace cfg t now = .ok (p, upk)
          ∧ key_version_ok cfg (p.key_version.getD 1) upk = false := by
  unfold verify_token
  cases hdec : decode_with_grace cfg t now with
  | error e =>
      constructor
      · intro h
        have he : e = invalidated_error := by simpa using h
        rcases decode_with_grace_error_cases cfg t now e hdec with h1 | h1 <;>
          (rw [h1] at he; exact absurd he (by decide))
      · rintro ⟨p, upk, hok, -⟩
        exact absurd hok (by simp)
  | ok pu =>
      obtain ⟨p, upk⟩ := pu
      cases hkv : key_version_ok cfg (p.key_version.getD 1) upk with
      | false =>
          constructor
          · intro _
            exact ⟨p, upk, rfl, hkv⟩
          · intro _
            simp [hkv]
      | true =>
          constructor
          · intro h
            exfalso
            simp only [hkv, Bool.not_true, Bool.and_false] at h
            cases check_activity with
            | false => exact absurd h (by simp)
            | true =>
                cases hact : activity_check cfg p now with
                | none => rw [hact] at h; exact absurd h (by simp)
                | some e' =>
                    rw [hact] at h
                    have he : e' = invalidated_error := by simpa using h
                    obtain ⟨rm, hrm⟩ := activity_check_some_shape cfg p now e' hact
                    rw [hrm] at he
                    have := congrArg HTTPException.detail he
                    exact absurd this (session_expired_detail_ne_invalidated cfg rm)
          · rintro ⟨p', upk', hok, hbad⟩
            have h' : p = p' ∧ upk = upk' := by simpa using hok
            rw [← h'.1, ← h'.2] at hbad
            rw [hkv] at hbad
            exact absurd hbad (by decide)

/-! ## C9 / C10 — token round-trip, inactivity, and the falsy-activity skip -/

theorem verify_create_reduces (cfg : Config) (uid : Nat) (uname : String) (r : Bool)
    (now tv : Nat) (hexp2 : ¬ now + cfg.ACCESS_TOKEN_EXPIRE_DAYS * 86400 ≤ tv) :
    verify_token cfg (create_access_token cfg uid uname r now) tv true true
      = match activity_check cfg (create_access_token cfg uid uname r now).payload tv with
        | some e => .error e
        | none => .ok (create_access_token cfg uid uname r now).payload := by
  unfold verify_token decode_with_grace jwt_decode key_version_ok create_access_token
  simp [hexp2]

/-- C9: verifying a token immediately after issuance succeeds and returns
the issued claims (matching user id, username and remember-me flag); after
the same inactivity gap `d` beyond the 30-minute standard timeout (but
within the absolute lifetime), verification of a `rememberMe = false`
token fails with the SessionExpired error while the `rememberMe = true`
token still verifies. -/
theorem C9_roundtrip_and_inactivity (cfg : Config) (uid : Nat) (uname : String)
    (now d : Nat)
    (h30 : cfg.ACTIVITY_TIMEOUT_MINUTES = 30)
    (hnow : 0 < now)
    (hd : 30 * 60 < d)
    (hexp : d < cfg.ACCESS_TOKEN_EXPIRE_DAYS * 86400)
    (hrm : d ≤ cfg.REMEMBER_ME_TIMEOUT_DAYS * 86400) :
    (∀ r : Bool,
        verify_token cfg (create_access_token cfg uid uname r now) now true true
          = .ok (create_access_token cfg uid uname r now).payload
      ∧ (create_access_token cfg uid uname r now).payload.user_id = uid
      ∧ (create_access_token cfg uid uname r now).payload.username = uname
      ∧ (create_access_token cfg uid uname r now).payload.remember_me = some r)
    ∧ verify_token cfg (create_access_token cfg uid uname false now) (now + d) true true
        = .error ⟨401, session_expired_detail cfg false, none⟩
    ∧ verify_token cfg (create_access_token cfg uid uname true now) (now + d) true true
        = .ok (create_access_token cfg uid uname true now).payload := by
  refine ⟨?_, ?_, ?_⟩
  · intro r
    have hact : activity_check cfg (create_access_token cfg uid uname r now).payload now
        = none := by
      unfold activity_check create_access_token
      dsimp only
      by_cases h0 : now = 0
      · simp [h0]
      · simp only [Option.getD_some, if_neg h0]
        cases r <;> simp
    rw [verify_create_reduces cfg uid uname r now now (by omega), hact]
    exact ⟨rfl, rfl, rfl, rfl⟩
  · have hact : activity_check cfg (create_access_token cfg uid uname false now).payload
        (now + d) = some ⟨401, session_expired_detail cfg false, none⟩ := by
      unfold activity_check create_access_token
      simp only [Option.getD_some, Bool.false_eq_true, if_false]
      rw [if_neg (show ¬ (now = 0) by omega)]
      rw [if_pos (show (↑(now + d) : Int) - ↑now > ↑cfg.ACTIVITY_TIMEOUT_MINUTES * 60 by
        rw [h30]; push_cast; omega)]
    rw [verify_create_reduces cfg uid uname false now (now + d) (by omega), hact]
  · have hact : activity_check cfg (create_access_token cfg uid uname true now).payload
        (now + d) = none := by
      unfold activity_check create_access_token
      simp only [Option.getD_some, if_true]
      rw [if_neg (show ¬ (now = 0) by omega)]
      rw [if_neg
        (show ¬ ((↑(now + d) : Int) - ↑now > ↑cfg.REMEMBER_ME_TIMEOUT_DAYS * 86400) by
          push_cast; omega)]
    rw [verify_create_reduces cfg uid uname true now (now + d) (by omega), hact]

/-- C9 witness: the theorem applied at the default configuration, `now = 1`
and a 1801-second gap. -/
theorem C9_witness :
    (∀ r : Bool,
        verify_token defaultConfig (create_access_token defaultConfig 1 "alice" r 1) 1 true true
          = .ok (create_access_token defaultConfig 1 "alice" r 1).payload
      ∧ (create_access_token defaultConfig 1 "alice" r 1).payload.user_id = 1
      ∧ (create_access_token defaultConfig 1 "alice" r 1).payload.username = "alice"
      ∧ (create_access_token defaultConfig 1 "alice" r 1).payload.remember_me = some r)
    ∧ verify_token defaultConfig (create_access_token defaultConfig 1 "alice" false 1)
        (1 + 1801) true true
        = .error ⟨401, session_expired_detail defaultConfig false, none⟩
    ∧ verify_token defaultConfig (create_access_token defaultConfig 1 "alice" true 1)
        (1 + 1801) true true
        = .ok (create_access_token defaultConfig 1 "alice" true 1).payload :=
  C9_roundtrip_and_inactivity defaultConfig 1 "alice" 1 1801
    (by decide) (by decide) (by decide) (by decide) (by decide)

/-- C10: when the payload has no `last_activity` claim, or a falsy (zero)
value, `verify_token` with activity checking enabled behaves exactly as
with the check disabled, and in particular never fails with a
SessionExpired error, for any elapsed time and any remember-me flag. -/
theorem C10_falsy_last_activity_skips_check (cfg : Config) (t : Token) (now : Nat)
    (check_key_version : Bool)
    (h : t.payload.last_activity.getD 0 = 0) :
    verify_token cfg t now true check_key_version
        = verify_token cfg t now false check_key_version
    ∧ ∀ rm : Bool, verify_token cfg t now true check_key_version
        ≠ .error ⟨401, session_expired_detail cfg rm, none⟩ := by
  have hskip : ∀ p upk, decode_with_grace cfg t now = .ok (p, upk) →
      activity_check cfg p now = none := by
    intro p upk hdec
    have hp := decode_with_grace_ok_payload cfg t now p upk hdec
    unfold activity_check
    rw [hp, h]
    simp
  unfold verify_token
  cases hdec : decode_with_grace cfg t now with
  | error e =>
      refine ⟨rfl, ?_⟩
      intro rm hcontra
      have he : e = ⟨401, session_expired_detail cfg rm, none⟩ := by simpa using hcontra
      rcases decode_with_grace_error_cases cfg t now e hdec with h1 | h1 <;> rw [h1] at he
      · exact session_expired_detail_ne_expired cfg rm (congrArg HTTPException.detail he).symm
      · exact session_expired_detail_ne_invalid cfg rm (congrArg HTTPException.detail he).symm
  | ok pu =>
      obtain ⟨p, upk⟩ := pu
      have hact := hskip p upk hdec
      dsimp only
      constructor
      · rw [hact]
        cases hkvb : (check_key_version && !key_version_ok cfg (p.key_version.getD 1) upk) <;>
          simp [hkvb]
      · intro rm hcontra
        cases hkvb : (check_key_version && !key_version_ok cfg (p.key_version.getD 1) upk) with
        | true =>
            rw [hkvb] at hcontra
            simp only [if_pos rfl] at hcontra
            have he : invalidated_error = HTTPException.mk 401 (session_expired_detail cfg rm)
                none := by simpa using hcontra
            exact session_expired_detail_ne_invalidated cfg rm
              (congrArg HTTPException.detail he).symm
        | false =>
            rw [hkvb, hact] at hcontra
            exact absurd hcontra (by simp)

/-- C10 witness: the theorem applied to a token carrying no
`last_activity` claim, far past any timeout. -/
theorem C10_witness :
    (verify_token cfgRot tokPrevCur 999 true true
        = verify_token cfgRot tokPrevCur 999 false true)
    ∧ ∀ rm : Bool, verify_token cfgRot tokPrevCur 999 true true
        ≠ .error ⟨401, session_expired_detail cfgRot rm, none⟩ :=
  C10_falsy_last_activity_skips_check cfgRot tokPrevCur 999 true (by decide)

/-! ## C2 / C4 / C5 — login error indistinguishability and the lockout machine -/

theorem find_user_single (u : UserRec) (s : String) (h : lower u.username = s) :
    find_user [u] s = some u := by
  simp [find_user, List.find?, h]

/-- C2 (counterexample): the claim states the user-not-found and the
wrong-password responses are identical in status AND detail.  Against a
store holding only `alice`, the unknown user `bob` gets the bare
`Invalid username or password` while a wrong password for `alice` gets the
same status but a detail carrying the remaining-attempts hint, so the two
responses differ. -/
theorem C2_counterexample :
    (login defaultConfig ckeq usersOne "bob" "x" false 0).result
        = .error ⟨401, "Invalid username or password", none⟩
    ∧ (login defaultConfig ckeq usersOne "alice" "wrong" false 0).result
        = .error ⟨401,
            "Invalid username or password. 4 attempts remaining before account lockout.",
            none⟩
    ∧ (login defaultConfig ckeq usersOne "bob" "x" false 0).result
        ≠ (login defaultConfig ckeq usersOne "alice" "wrong" false 0).result := by
  refine ⟨by decide, by decide, by decide⟩

/-- C2 (amended): both failures return status 401, but only the status is
shared — the user-not-found detail is exactly `Invalid username or
password` while the wrong-password detail (for an unlocked account not
reaching the lockout threshold) appends the remaining-attempts hint, so a
caller can distinguish the two cases by the response body. -/
theorem C2_amended_login_error_details (cfg : Config)
    (checkpw : String → String → Bool) (users : List UserRec)
    (uname1 pw1 uname2 pw2 : String) (rm1 rm2 : Bool) (now1 now2 : Nat) (u : UserRec)
    (h1 : find_user users (lower (strip uname1)) = none)
    (h2 : find_user users (lower (strip uname2)) = some u)
    (h3 : u.locked_until = none)
    (h4 : checkpw pw2 u.password_hash = false)
    (h5 : u.failed_login_attempts + 1 < 5) :
    (login cfg checkpw users uname1 pw1 rm1 now1).result
        = .error ⟨401, "Invalid username or password", none⟩
    ∧ (login cfg checkpw users uname2 pw2 rm2 now2).result
        = .error ⟨401, "Invalid username or password. "
            ++ toString (5 - (u.failed_login_attempts + 1))
            ++ " attempts remaining before account lockout.", none⟩ := by
  have h6 : ¬ (5 ≤ u.failed_login_attempts + 1) := by omega
  constructor
  · simp [login, h1]
  · simp [login, h2, h3, h4, h6]

/-- C2 witness. -/
theorem C2_amended_witness :
    (login defaultConfig ckeq usersOne "bob" "x" false 0).result
        = .error ⟨401, "Invalid username or password", none⟩
    ∧ (login defaultConfig ckeq usersOne "alice" "wrong" false 0).result
        = .error ⟨401, "Invalid username or password. "
            ++ toString (5 - (0 + 1))
            ++ " attempts remaining before account lockout.", none⟩ :=
  C2_amended_login_error_details defaultConfig ckeq usersOne "bob" "x" "alice" "wrong"
    false false 0 0 ⟨1, "alice", "pw", none, 0, none⟩
    (by decide) (by decide) (by decide) (by decide) (by decide)

/-- C5: every login attempt made while the account is locked
(`now < lockedUntil`) is rejected with 423, a detail carrying the
remaining minutes, and a `Retry-After` header carrying the remaining
seconds; the stored row is unchanged (no increment, no new lock) and no
lockout email is sent. -/
theorem C5_locked_attempt_rejected_without_side_effects (cfg : Config)
    (checkpw : String → String → Bool) (users : List UserRec)
    (uname pw : String) (rm : Bool) (now : Nat) (u : UserRec) (lu : Nat)
    (hfind : find_user users (lower (strip uname)) = some u)
    (hlock : u.locked_until = some lu)
    (hnow : now < lu) :
    (login cfg checkpw users uname pw rm now).result
        = .error ⟨423,
            "Account locked due to multiple failed login attempts. Try again in "
              ++ toString ((lu - now) / 60) ++ " minutes.",
            some (lu - now)⟩
    ∧ (login cfg checkpw users uname pw rm now).user_after = some u
    ∧ (login cfg checkpw users uname pw rm now).lockout_email_sent = false := by
  refine ⟨?_, ?_, ?_⟩ <;> simp [login, hfind, hlock, hnow]

/-- C5 witness. -/
theorem C5_witness :
    (login defaultConfig ckeq [⟨1, "alice", "pw", none, 5, some 907⟩] "alice" "pw"
        false 7).result
        = .error ⟨423,
            "Account locked due to multiple failed login attempts. Try again in "
              ++ toString ((907 - 7) / 60) ++ " minutes.",
            some (907 - 7)⟩
    ∧ (login defaultConfig ckeq [⟨1, "alice", "pw", none, 5, some 907⟩] "alice" "pw"
        false 7).user_after = some ⟨1, "alice", "pw", none, 5, some 907⟩
    ∧ (login defaultConfig ckeq [⟨1, "alice", "pw", none, 5, some 907⟩] "alice" "pw"
        false 7).lockout_email_sent = false :=
  C5_locked_attempt_rejected_without_side_effects defaultConfig ckeq
    [⟨1, "alice", "pw", none, 5, some 907⟩] "alice" "pw" false 7
    ⟨1, "alice", "pw", none, 5, some 907⟩ 907 (by decide) (by decide) (by decide)

/-- C4: starting from a clean account, five consecutive failed password
checks walk the attempt counter 1→2→3→4 and, on the fifth, lock the
account with `lockedUntil = t5 + 15 minutes` (423 response); the next
attempt with the CORRECT password while still locked is rejected 423 with
the remaining lock time; an attempt with the correct password once
`lockedUntil` has passed succeeds and resets the counter to 0 and the lock
to none. -/
theorem C4_lockout_state_machine (cfg : Config) (checkpw : String → String → Bool)
    (u0 : UserRec) (wrongpw rightpw : String) (t1 t2 t3 t4 t5 t6 t7 : Nat)
    (hA : u0.failed_login_attempts = 0) (hL : u0.locked_until = none)
    (hname : strip u0.username = u0.username)
    (hw : checkpw wrongpw u0.password_hash = false)
    (hr : checkpw rightpw u0.password_hash = true)
    (h6 : t6 < t5 + 15 * 60) (h7 : t5 + 15 * 60 ≤ t7) :
    (login cfg checkpw [u0] u0.username wrongpw false t1).user_after
        = some { u0 with failed_login_attempts := 1 }
    ∧ (login cfg checkpw [{ u0 with failed_login_attempts := 1 }]
        u0.username wrongpw false t2).user_after
        = some { u0 with failed_login_attempts := 2 }
    ∧ (login cfg checkpw [{ u0 with failed_login_attempts := 2 }]
        u0.username wrongpw false t3).user_after
        = some { u0 with failed_login_attempts := 3 }
    ∧ (login cfg checkpw [{ u0 with failed_login_attempts := 3 }]
        u0.username wrongpw false t4).user_after
        = some { u0 with failed_login_attempts := 4 }
    ∧ (login cfg checkpw [{ u0 with failed_login_attempts := 4 }]
        u0.username wrongpw false t5).result
        = .error ⟨423,
            "Account locked due to multiple failed login attempts. Try again in 15 minutes.",
            some (15 * 60)⟩
    ∧ (login cfg checkpw [{ u0 with failed_login_attempts := 4 }]
        u0.username wrongpw false t5).user_after
        = some { u0 with failed_login_attempts := 5, locked_until := some (t5 + 15 * 60) }
    ∧ (login cfg checkpw
        [{ u0 with failed_login_attempts := 5, locked_until := some (t5 + 15 * 60) }]
        u0.username rightpw false t6).result
        = .error ⟨423,
            "Account locked due to multiple failed login attempts. Try again in "
              ++ toString ((t5 + 15 * 60 - t6) / 60) ++ " minutes.",
            some (t5 + 15 * 60 - t6)⟩
    ∧ (login cfg checkpw
        [{ u0 with failed_login_attempts := 5, locked_until := some (t5 + 15 * 60) }]
        u0.username rightpw false t6).user_after
        = some { u0 with failed_login_attempts := 5, locked_until := some (t5 + 15 * 60) }
    ∧ (login cfg checkpw
        [{ u0 with failed_login_attempts := 5, locked_until := some (t5 + 15 * 60) }]
        u0.username rightpw false t7).result
        = .ok { token := create_access_token cfg u0.id u0.username false t7,
                user_id := u0.id, username := u0.username }
    ∧ (login cfg checkpw
        [{ u0 with failed_login_attempts := 5, locked_until := some (t5 + 15 * 60) }]
        u0.username rightpw false t7).user_after
        = some { u0 with failed_login_attempts := 0, locked_until := none } := by
  have hf0 : find_user [u0] (lower (strip u0.username)) = some u0 :=
    find_user_single u0 _ (by rw [hname])
  have hf1 : ∀ k : Nat,
      find_user [{ u0 with failed_login_attempts := k, locked_until := none }]
        (lower (strip u0.username))
        = some { u0 with failed_login_attempts := k, locked_until := none } :=
    fun k => find_user_single _ _ (by rw [hname])
  have hf5 : find_user
      [{ u0 with failed_login_attempts := 5, locked_until := some (t5 + 15 * 60) }]
      (lower (strip u0.username))
      = some { u0 with failed_login_attempts := 5, locked_until := some (t5 + 15 * 60) } :=
    find_user_single _ _ (by rw [hname])
  have hnot5 : ∀ k : Nat, k < 4 → ¬ (5 ≤ k + 1) := by omega
  have h7' : ¬ (t7 < t5 + 15 * 60) := by omega
  refine ⟨?_, ?_, ?_, ?_, ?_, ?_, ?_, ?_, ?_, ?_⟩
  · simp [login, hf0, hL, hw, hA, hnot5 0 (by omega)]
  · simp [login, hL, hf1 1, hw, hnot5 1 (by omega)]
  · simp [login, hf1 2, hL, hw, hnot5 2 (by omega)]
  · simp [login, hf1 3, hL, hw, hnot5 3 (by omega)]
  · simp [login, hf1 4, hL, hw]
  · simp [login, hf1 4, hL, hw]
  · simp [login, hf5, h6]
  · simp [login, hf5, h6]
  · simp [login, hf5, h7', hr]
  · simp [login, hf5, h7', hr]

/-- C4 witness: a clean `alice` account run through the full
fail–lock–retry–expire cycle at concrete times. -/
theorem C4_witness :
    (login defaultConfig ckeq [⟨1, "alice", "pw", none, 0, none⟩] "alice" "x"
        false 0).user_after = some ⟨1, "alice", "pw", none, 1, none⟩
    ∧ (login defaultConfig ckeq [⟨1, "alice", "pw", none, 1, none⟩] "alice" "x"
        false 0).user_after = some ⟨1, "alice", "pw", none, 2, none⟩
    ∧ (login defaultConfig ckeq [⟨1, "alice", "pw", none, 2, none⟩] "alice" "x"
        false 0).user_after = some ⟨1, "alice", "pw", none, 3, none⟩
    ∧ (login defaultConfig ckeq [⟨1, "alice", "pw", none, 3, none⟩] "alice" "x"
        false 0).user_after = some ⟨1, "alice", "pw", none, 4, none⟩
    ∧ (login defaultConfig ckeq [⟨1, "alice", "pw", none, 4, none⟩] "alice" "x"
        false 0).result
        = .error ⟨423,
            "Account locked due to multiple failed login attempts. Try again in 15 minutes.",
            some (15 * 60)⟩
    ∧ (login defaultConfig ckeq [⟨1, "alice", "pw", none, 4, none⟩] "alice" "x"
        false 0).user_after = some ⟨1, "alice", "pw", none, 5, some (0 + 15 * 60)⟩
    ∧ (login defaultConfig ckeq [⟨1, "alice", "pw", none, 5, some (0 + 15 * 60)⟩]
        "alice" "pw" false 100).result
        = .error ⟨423,
            "Account locked due to multiple failed login attempts. Try again in "
              ++ toString ((0 + 15 * 60 - 100) / 60) ++ " minutes.",
            some (0 + 15 * 60 - 100)⟩
    ∧ (login defaultConfig ckeq [⟨1, "alice", "pw", none, 5, some (0 + 15 * 60)⟩]
        "alice" "pw" false 100).user_after
        = some ⟨1, "alice", "pw", none, 5, some (0 + 15 * 60)⟩
    ∧ (login defaultConfig ckeq [⟨1, "alice", "pw", none, 5, some (0 + 15 * 60)⟩]
        "alice" "pw" false 900).result
        = .ok { token := create_access_token defaultConfig 1 "alice" false 900,
                user_id := 1, username := "alice" }
    ∧ (login defaultConfig ckeq [⟨1, "alice", "pw", none, 5, some (0 + 15 * 60)⟩]
        "alice" "pw" false 900).user_after = some ⟨1, "alice", "pw", none, 0, none⟩ :=
  C4_lockout_state_machine defaultConfig ckeq ⟨1, "alice", "pw", none, 0, none⟩
    "x" "pw" 0 0 0 0 0 100 900 (by decide) (by decide) (by decide) (by decide)
    (by decide) (by decide) (by decide)

/-! ## C3 — registration password rejection and the full error list -/

/-- C3 (counterexample): the claim states every policy-violating password
is rejected with the FULL list of violated rules as produced by
`validate_password`.  The password `abc` violates four rules (length,
uppercase, digit, special), but registration rejects it with the single
pydantic length message — the bound check `constr(min_length=8)` fires
before the field validator that would produce the full list. -/
theorem C3_counterexample :
    register defaultConfig [] "alice123" "abc" none 1 0
        = .validationError ["ensure this value has at least 8 characters"]
    ∧ (validate_password "abc" (some "alice123")).errors.length = 4
    ∧ ["ensure this value has at least 8 characters"]
        ≠ (validate_password "abc" (some "alice123")).errors := by
  refine ⟨by decide, by decide, by decide⟩

/-- C3 (amended): registration does reject every policy-violating
password, but the shape of the rejection depends on the length: for a
password within pydantic's 8–128 bounds the 422 carries the full
`validate_password` error list joined with `"; "`, while for a password
shorter than 8 characters it carries only the single pydantic
`min_length` message, not the full list. -/
theorem C3_amended_register_password_rejections (cfg : Config)
    (users : List UserRec) (username u p1 p2 : String)
    (fid1 fid2 now1 now2 : Nat)
    (hu : validate_username_format username = .ok u)
    (h1a : 8 ≤ p1.length) (h1b : p1.length ≤ 128)
    (h1c : (validate_password p1 (some u)).valid = false)
    (h2 : p2.length < 8) :
    register cfg users username p1 none fid1 now1
        = .validationError
            [String.intercalate "; " (validate_password p1 (some u)).errors]
    ∧ register cfg users username p2 none fid2 now2
        = .validationError ["ensure this value has at least 8 characters"] := by
  have h1na : ¬ (p1.length < 8) := by omega
  have h1nb : ¬ (128 < p1.length) := by omega
  constructor
  · simp [register, parse_register_request, register_password_field,
      register_email_field, hu, h1na, h1nb, h1c]
  · simp [register, parse_register_request, register_password_field,
      register_email_field, hu, h2]

/-- C3 witness. -/
theorem C3_amended_witness :
    register defaultConfig [] "alice123" "Alice123!x" none 1 0
        = .validationError
            [String.intercalate "; "
              (validate_password "Alice123!x" (some "alice123")).errors]
    ∧ register defaultConfig [] "alice123" "abc" none 2 0
        = .validationError ["ensure this value has at least 8 characters"] :=
  C3_amended_register_password_rejections defaultConfig [] "alice123" "alice123"
    "Alice123!x" "abc" 1 2 0 0 (by decide) (by decide) (by decide) (by decide) (by decide)

/-! ## C6 — single-use semantics of the verification codes -/

/-- C6: a successfully verified registration code and a successfully
verified username-recovery code are deleted immediately (a second
verification of the same code fails NotFound), while a successfully
verified password-recovery code is retained by the verify step — the
store is unchanged — and is deleted by the subsequent successful
reset-password call that uses it. -/
theorem C6_code_single_use_asymmetry (s : VStore) (users : List UserRec)
    (email code npw nh : String) (now : Nat) (e : String) (rr ru rp : CodeRec)
    (uu : UserRec)
    (he : strip (lower email) = e)
    (hreg : s e "registration" = some rr)
    (hregc : rr.code = strip code) (hrege : ¬ rr.expires_at < now)
    (hru : s e "recovery_username" = some ru)
    (hruc : ru.code = strip code) (hrue : ¬ ru.expires_at < now)
    (hrp : s e "recovery_password" = some rp)
    (hrpc : rp.code = strip code) (hrpe : ¬ rp.expires_at < now)
    (huser : users.find? (fun u => u.email == some e) = some uu)
    (hnp : register_password_error npw = none) :
    (verify_code s email code now).result = .ok ()
    ∧ (verify_code s email code now).store e "registration" = none
    ∧ (verify_code (verify_code s email code now).store email code now).result
        = .error ⟨400, "No verification code found for this email", none⟩
    ∧ (verify_recovery_code s users email code "username" now).result
        = .ok (some uu.username)
    ∧ (verify_recovery_code s users email code "username" now).store
        e "recovery_username" = none
    ∧ (verify_recovery_code (verify_recovery_code s users email code "username" now).store
        users email code "username" now).result
        = .error ⟨400, "No recovery code found for this email", none⟩
    ∧ (verify_recovery_code s users email code "password" now).result = .ok none
    ∧ (verify_recovery_code s users email code "password" now).store = s
    ∧ (reset_password s users email code npw nh now).result = .ok ()
    ∧ (reset_password s users email code npw nh now).store e "recovery_password" = none := by
  have hcatU : ("recovery_" ++ "username" : String) = "recovery_username" := rfl
  have hcatP : ("recovery_" ++ "password" : String) = "recovery_password" := rfl
  have hne : ("password" : String) ≠ "username" := by decide
  refine ⟨?_, ?_, ?_, ?_, ?_, ?_, ?_, ?_, ?_, ?_⟩
  · simp [verify_code, he, hreg, hregc, hrege]
  · simp [verify_code, he, hreg, hregc, hrege, delete_code]
  · simp [verify_code, he, hreg, hregc, hrege, delete_code]
  · simp [verify_recovery_code, he, hcatU, hru, hruc, hrue, huser]
  · simp [verify_recovery_code, he, hcatU, hru, hruc, hrue, huser, delete_code]
  · simp [verify_recovery_code, he, hcatU, hru, hruc, hrue, huser, delete_code]
  · simp [verify_recovery_code, he, hcatP, hrp, hrpc, hrpe, hne]
  · simp [verify_recovery_code, he, hcatP, hrp, hrpc, hrpe, hne]
  · simp [reset_password, he, hrp, hrpc, hrpe, hnp]
  · simp [reset_password, he, hrp, hrpc, hrpe, hnp, delete_code]

/-- C6 witness: a store holding all three code purposes for `a@b.c`. -/
theorem C6_witness :
    (verify_code storeAll "a@b.c" "123456" 600).result = .ok ()
    ∧ (verify_code storeAll "a@b.c" "123456" 600).store "a@b.c" "registration" = none
    ∧ (verify_code (verify_code storeAll "a@b.c" "123456" 600).store
        "a@b.c" "123456" 600).result
        = .error ⟨400, "No verification code found for this email", none⟩
    ∧ (verify_recovery_code storeAll usersEmail "a@b.c" "123456" "username" 600).result
        = .ok (some "alice")
    ∧ (verify_recovery_code storeAll usersEmail "a@b.c" "123456" "username" 600).store
        "a@b.c" "recovery_username" = none
    ∧ (verify_recovery_code
        (verify_recovery_code storeAll usersEmail "a@b.c" "123456" "username" 600).store
        usersEmail "a@b.c" "123456" "username" 600).result
        = .error ⟨400, "No recovery code found for this email", none⟩
    ∧ (verify_recovery_code storeAll usersEmail "a@b.c" "123456" "password" 600).result
        = .ok none
    ∧ (verify_recovery_code storeAll usersEmail "a@b.c" "123456" "password" 600).store
        = storeAll
    ∧ (reset_password storeAll usersEmail "a@b.c" "123456" "Str0ng!Pass" "H2" 600).result
        = .ok ()
    ∧ (reset_password storeAll usersEmail "a@b.c" "123456" "Str0ng!Pass" "H2" 600).store
        "a@b.c" "recovery_password" = none :=
  C6_code_single_use_asymmetry storeAll usersEmail "a@b.c" "123456" "Str0ng!Pass" "H2"
    600 "a@b.c" ⟨"123456", 700⟩ ⟨"123456", 700⟩ ⟨"123456", 700⟩
    ⟨1, "alice", "h", some "a@b.c", 0, none⟩
    (by decide) (by decide) (by decide) (by decide) (by decide) (by decide) (by decide)
    (by decide) (by decide) (by decide) (by decide) (by decide)

/-! ## C7 — frame effect of the send operations -/

/-- C7 (counterexample): the claim states a send deletes only the code of
its own `(email, purpose)` pair.  `send_verification_code` for `a@b.c`
(which writes the `registration` purpose) also deletes the stored
`recovery_password` code of the same email: the source runs
`DELETE FROM verification_codes WHERE email = ?` without a `code_type`
filter. -/
theorem C7_counterexample :
    storeRP "a@b.c" "recovery_password" = some ⟨"111111", 1000⟩
    ∧ (send_verification_code storeRP "a@b.c" "222222" 0).result = .ok ()
    ∧ (send_verification_code storeRP "a@b.c" "222222" 0).store
        "a@b.c" "recovery_password" = none := by
  refine ⟨by decide, by decide, by decide⟩

/-- C7 (amended): `send_recovery_code` has the claimed frame — it replaces
exactly the `(email, recovery_<type>)` row and leaves every other row
unchanged — but `send_verification_code` deletes EVERY row stored for the
email, whatever its purpose, before inserting the new registration code;
rows of other emails are untouched. -/
theorem C7_amended_send_frame (s : VStore) (users : List UserRec)
    (email code ty : String) (now : Nat) (e e2 t2 : String) (uu : UserRec)
    (he : strip (lower email) = e)
    (hat : containsChar e '@' = true)
    (hdot : containsChar e '.' = true)
    (huser : users.find? (fun u => u.email == some e) = some uu) :
    (send_recovery_code s users email code ty now).result = .ok ()
    ∧ (send_recovery_code s users email code ty now).store e2 t2
        = (if e2 = e ∧ t2 = "recovery_" ++ ty then some ⟨code, now + 10 * 60⟩
           else s e2 t2)
    ∧ (send_verification_code s email code now).result = .ok ()
    ∧ (send_verification_code s email code now).store e2 t2
        = (if e2 = e ∧ t2 = "registration" then some ⟨code, now + 10 * 60⟩
           else if e2 = e then none else s e2 t2) := by
  refine ⟨?_, ?_, ?_, ?_⟩
  · simp [send_recovery_code, he, hat, hdot, huser]
  · simp [send_recovery_code, he, hat, hdot, huser, insert_code, delete_code,
      Bool.and_eq_true, decide_eq_true_eq]
    split_ifs <;> rfl
  · simp [send_verification_code, he, hat, hdot]
  · simp [send_verification_code, he, hat, hdot, insert_code, delete_codes_for_email,
      Bool.and_eq_true, decide_eq_true_eq]

/-- C7 witness. -/
theorem C7_amended_witness :
    (send_recovery_code storeRP usersEmail "a@b.c" "333333" "username" 0).result = .ok ()
    ∧ (send_recovery_code storeRP usersEmail "a@b.c" "333333" "username" 0).store
        "a@b.c" "recovery_password"
        = (if "a@b.c" = "a@b.c" ∧ "recovery_password" = "recovery_" ++ "username"
           then some ⟨"333333", 0 + 10 * 60⟩
           else storeRP "a@b.c" "recovery_password")
    ∧ (send_verification_code storeRP "a@b.c" "333333" 0).result = .ok ()
    ∧ (send_verification_code storeRP "a@b.c" "333333" 0).store
        "a@b.c" "recovery_password"
        = (if "a@b.c" = "a@b.c" ∧ "recovery_password" = "registration"
           then some ⟨"333333", 0 + 10 * 60⟩
           else if "a@b.c" = "a@b.c" then none
           else storeRP "a@b.c" "recovery_password") :=
  (C7_amended_send_frame storeRP usersEmail "a@b.c" "333333" "username" 0 "a@b.c"
    "a@b.c" "recovery_password" ⟨1, "alice", "h", some "a@b.c", 0, none⟩
    (by decide) (by decide) (by decide) (by decide))

/-! ## C8 — the weak-score rejection of `validate_password` -/

theorem hard_rules_imply_classes (p : String) (u : Option String)
    (h : hard_rule_errors p u = []) :
    ¬ (p.length < 8) ∧ hasUpperChar p = true ∧ hasLowerChar p = true
      ∧ hasDigitChar p = true ∧ hasSpecialChar p = true := by
  unfold hard_rule_errors at h
  rw [List.append_eq_nil, List.append_eq_nil, List.append_eq_nil, List.append_eq_nil,
    List.append_eq_nil, List.append_eq_nil, List.append_eq_nil] at h
  obtain ⟨⟨⟨⟨⟨⟨⟨h1, h2⟩, h3⟩, h4⟩, h5⟩, -⟩, -⟩, -⟩ := h
  refine ⟨?_, ?_, ?_, ?_, ?_⟩
  · intro hc; rw [if_pos hc] at h1; exact absurd h1 (by simp)
  · cases hc : hasUpperChar p
    · rw [hc] at h2; exact absurd h2 (by simp)
    · rfl
  · cases hc : hasLowerChar p
    · rw [hc] at h3; exact absurd h3 (by simp)
    · rfl
  · cases hc : hasDigitChar p
    · rw [hc] at h4; exact absurd h4 (by simp)
    · rfl
  · cases hc : hasSpecialChar p
    · rw [hc] at h5; exact absurd h5 (by simp)
    · rfl

set_option maxHeartbeats 1000000 in
theorem hard_rules_score_at_least_50 (p : String) (u : Option String)
    (h : hard_rule_errors p u = []) :
    50 ≤ (calculate_password_strength p).2 := by
  obtain ⟨h8, hup, hlo, hdi, hsp⟩ := hard_rules_imply_classes p u h
  have h8' : 8 ≤ p.length := by omega
  unfold calculate_password_strength
  dsimp only
  rw [hup, hlo, hdi, hsp, if_pos h8']
  rw [show (if (true : Bool) = true then (10 : Int) else 0) = 10 from rfl]
  rw [show (if (true : Bool) = true then (1 : Nat) else 0) = 1 from rfl]
  rw [if_pos (show (1 + 1 + 1 + 1 : Nat) = 4 by norm_num)]
  split_ifs <;> omega

/-- C8: every password that satisfies all the hard rules (length, the four
character classes, denylist, username checks — `hard_rule_errors = []`)
but scores below 40 is rejected by `validate_password` with the advisory
weak-password message.  Stated in the classically equivalent
hypothesis-free disjunctive form; the property holds because passing the
hard rules forces a score of at least 50 (`hard_rules_score_at_least_50`),
so the third and second disjuncts always apply and the weak-advisory
branch of the source is unreachable for hard-rule-passing passwords. -/
theorem C8_weak_score_rejection (p : String) (u : Option String) :
    ((validate_password p u).valid = false
      ∧ weak_advisory (calculate_password_strength p).2 ∈ (validate_password p u).errors)
    ∨ 40 ≤ (calculate_password_strength p).2
    ∨ hard_rule_errors p u ≠ [] := by
  by_cases h : hard_rule_errors p u = []
  · right; left
    have := hard_rules_score_at_least_50 p u h
    omega
  · right; right; exact h

end DropLink
